import Mathlib

/-!
Shallow embedding of the MP4-to-GIF converter's asynchronous job engine.

The embedding follows the Python sources:
* `core_converter/conversion.py` — `get_video_duration`, `run_conversion`
* `desktop_app/app.py` — `get_video_duration`, `conversion_worker_thread`,
  `start_conversion_task` (in-memory `tasks_db`)
* `webapp/app.py` — `conversion_worker`, `start_conversion_task`,
  `update_task_status` (status files)

External effects (subprocess results, the filesystem) are made explicit:
a filesystem is a map from path to file size, process outcomes are drawn
from an environment record, and observable actions (process invocations,
progress callbacks, file removals) are recorded in an event trace.
Python floats are modelled as rationals.
-/

namespace MP4Gif

/-! ### Filesystem model -/

/-- A filesystem maps a path to the size of the file stored there. -/
abbrev FS := String → Option Nat

/-- Model of `os.remove`. -/
def removeFile (fs : FS) (p : String) : FS := fun q => if q = p then none else fs q

/-- A process (or upload) writing a file of size `sz` at path `p`. -/
def writeFile (fs : FS) (p : String) (sz : Nat) : FS :=
  fun q => if q = p then some sz else fs q

/-- Model of `os.path.exists`. -/
def pathExists (fs : FS) (p : String) : Bool := (fs p).isSome

/-- Model of `os.path.getsize` (0 when absent; callers guard with `pathExists`). -/
def getsize (fs : FS) (p : String) : Nat := (fs p).getD 0

/-- Apply an optional write produced by an external process. -/
def applyWrite (fs : FS) (p : String) : Option Nat → FS
  | some sz => writeFile fs p sz
  | none => fs

/-! ### Path helpers (model of `posixpath` `basename` / `dirname` / `join`,
for the common case of paths without trailing slashes) -/

/-- Model of `os.path.basename`: the part after the last `/`. -/
def basename (p : String) : String :=
  ⟨(p.data.reverse.takeWhile (fun c => c ≠ '/')).reverse⟩

/-- Model of `os.path.dirname`: the part before the last `/` (empty if none). -/
def dirname (p : String) : String :=
  match p.data.reverse.dropWhile (fun c => c ≠ '/') with
  | '/' :: more => ⟨more.reverse⟩
  | _ => ""

/-- String prefix test over the underlying character lists. -/
def strStartsWith (s pre : String) : Bool := pre.data.isPrefixOf s.data

/-- String suffix test over the underlying character lists. -/
def strEndsWith (s suf : String) : Bool := suf.data.reverse.isPrefixOf s.data.reverse

/-- Model of `os.path.join` for two components. -/
def joinPath (d f : String) : String :=
  if strStartsWith f "/" then f
  else if d = "" then f
  else if strEndsWith d "/" then d ++ f
  else d ++ "/" ++ f

/-! ### Python numeric helpers -/

/-- Value of a digit character. -/
def digitVal (c : Char) : Nat := c.toNat - 48

/-- Value of a list of digit characters read in base 10. -/
def digitsVal (ds : List Char) : Nat := ds.foldl (fun n c => n * 10 + digitVal c) 0

/-- Parse an unsigned decimal literal `digits[.digits]` (both parts optional but
not both empty), the whole input being consumed.  Used by `pyFloat`. -/
def parseUnsigned (cs : List Char) : Option ℚ :=
  let ip := cs.takeWhile Char.isDigit
  let rest := cs.dropWhile Char.isDigit
  match rest with
  | [] => if ip = [] then none else some (digitsVal ip : ℚ)
  | '.' :: rest2 =>
    let fp := rest2.takeWhile Char.isDigit
    let rest3 := rest2.dropWhile Char.isDigit
    if rest3 = [] ∧ (ip ≠ [] ∨ fp ≠ []) then
      some ((digitsVal ip : ℚ) + (digitsVal fp : ℚ) / (10 : ℚ) ^ fp.length)
    else none
  | _ => none

/-- Whitespace stripping as done by Python `str.strip()` and by `float()`
itself on its argument. -/
def stripChars (cs : List Char) : List Char :=
  ((cs.dropWhile Char.isWhitespace).reverse.dropWhile Char.isWhitespace).reverse

/-- Model of Python `str.strip()`. -/
def pyStrip (s : String) : String := ⟨stripChars s.data⟩

/-- Model of Python `float(s)`: strip surrounding whitespace, optional sign,
decimal digits with optional fraction; `none` models a raised `ValueError`.
(Scientific notation and `inf`/`nan` are not modelled; no theorem below
exercises them.) -/
def pyFloat (s : String) : Option ℚ :=
  match stripChars s.data with
  | '+' :: r => parseUnsigned r
  | '-' :: r => (parseUnsigned r).map Neg.neg
  | r => parseUnsigned r

/-- Model of Python `int()` applied to a float: truncation toward zero. -/
def pyTrunc (q : ℚ) : ℤ := if 0 ≤ q then ⌊q⌋ else ⌈q⌉

/-! ### Progress parsing (`run_conversion`, conversion.py lines 68-80)

The regex is `time=(\d{2}):(\d{2}):(\d{2})\.(\d{2})`, applied with `search`
(leftmost match anywhere in the line). -/

/-- Match the timestamp pattern at the head of the character list. -/
def matchTimeAt (cs : List Char) : Option (Nat × Nat × Nat × Nat) :=
  match cs with
  | 't' :: 'i' :: 'm' :: 'e' :: '=' :: h1 :: h2 :: ':' :: m1 :: m2 :: ':'
      :: s1 :: s2 :: '.' :: f1 :: f2 :: _ =>
    if h1.isDigit ∧ h2.isDigit ∧ m1.isDigit ∧ m2.isDigit ∧ s1.isDigit ∧ s2.isDigit
        ∧ f1.isDigit ∧ f2.isDigit then
      some (digitVal h1 * 10 + digitVal h2, digitVal m1 * 10 + digitVal m2,
            digitVal s1 * 10 + digitVal s2, digitVal f1 * 10 + digitVal f2)
    else none
  | _ => none

/-- Model of `re.search` for the timestamp pattern: try each position left to
right. -/
def searchTime : List Char → Option (Nat × Nat × Nat × Nat)
  | [] => none
  | c :: rest =>
    match matchTimeAt (c :: rest) with
    | some r => some r
    | none => searchTime rest

/-- Elapsed seconds from the matched groups:
`hours * 3600 + minutes * 60 + seconds + hundredths / 100`. -/
def elapsedSeconds (h m s f : Nat) : ℚ :=
  (h : ℚ) * 3600 + (m : ℚ) * 60 + (s : ℚ) + (f : ℚ) / 100

/-- Stage offset: `base_progress = 20 if high_quality else 0`
(conversion.py line 77). -/
def baseProgress (high_quality : Bool) : ℚ := if high_quality then 20 else 0

/-- Progress value computed for a parsed timestamp (conversion.py lines 78-79):
`progress = min(100, int(base_progress + (current/duration)*(100-base)))`. -/
def progressValue (high_quality : Bool) (duration elapsed : ℚ) : ℤ :=
  min 100 (pyTrunc (baseProgress high_quality +
    (elapsed / duration) * (100 - baseProgress high_quality)))

/-- The event the progress-parsing loop produces for one stderr line: a value
only when the line contains a timestamp match and `conversion_duration > 0`. -/
def progressEventOfLine (high_quality : Bool) (duration : ℚ) (line : String) :
    Option ℤ :=
  match searchTime line.data with
  | some (h, m, s, f) =>
    if 0 < duration then some (progressValue high_quality duration (elapsedSeconds h m s f))
    else none
  | none => none

/-! ### Events and process environment -/

/-- Observable actions of a worker run. -/
inductive Event where
  | invoke (cmd : List String)
  | progressCb (p : ℤ) (label : String)
  | removed (path : String)
deriving DecidableEq, Repr

/-- Arguments of `run_conversion` (conversion.py lines 22-33), plus whether a
`progress_callback` was supplied. -/
structure ConvArgs where
  ffmpeg_path : String
  input_path : String
  output_path : String
  start_time : ℚ
  end_time : Option ℚ
  fps : Nat
  width : Nat
  conversion_duration : ℚ
  high_quality : Bool
  hasCallback : Bool
deriving DecidableEq, Repr

/-- Behaviour of the external processes during one `run_conversion` call:
exit codes, captured/streamed stderr, and which output files ffmpeg writes. -/
structure ConvEnv where
  paletteExit : ℤ
  paletteErr : String
  paletteWrites : Option Nat
  finalLines : List String
  finalExit : ℤ
  finalWrites : Option Nat
deriving DecidableEq, Repr

/-! ### Command construction (conversion.py lines 40-66) -/

/-- The command prefix: `[ffmpeg, '-ss', str(start_time)]`, then
`['-t', str(end-start)]` when `end_time` is given, then `['-i', input]`.
`toString` on a rational stands for Python `str` on the float value. -/
def baseCmd (a : ConvArgs) : List String :=
  [a.ffmpeg_path, "-ss", toString a.start_time] ++
    (match a.end_time with
     | some e => ["-t", toString (e - a.start_time)]
     | none => []) ++
    ["-i", a.input_path]

/-- Filter graph of the palette pass. -/
def paletteVf (a : ConvArgs) : String :=
  "fps=" ++ toString a.fps ++ ",scale=" ++ toString a.width ++ ":-1:flags=lanczos,palettegen"

/-- Filter graph of the palette-application pass. -/
def gifVf (a : ConvArgs) : String :=
  "fps=" ++ toString a.fps ++ ",scale=" ++ toString a.width ++
    ":-1:flags=lanczos [x]; [x][1:v] paletteuse"

/-- Filter graph of the single-pass pipeline. -/
def vfOptions (a : ConvArgs) : String :=
  "fps=" ++ toString a.fps ++ ",scale=" ++ toString a.width ++ ":-1:flags=lanczos"

/-- The temporary palette path:
`os.path.join(dirname(output), "palette_" + basename(input) + ".png")`. -/
def palettePathOf (a : ConvArgs) : String :=
  joinPath (dirname a.output_path) ("palette_" ++ basename a.input_path ++ ".png")

/-- The palette-generation command (first invocation of two-pass mode). -/
def paletteCmd (a : ConvArgs) : List String :=
  baseCmd a ++ ["-vf", paletteVf a, "-y", palettePathOf a]

/-- The palette-application command (second invocation of two-pass mode); the
palette is supplied as a second input. -/
def gifCmd (a : ConvArgs) : List String :=
  baseCmd a ++ ["-i", palettePathOf a, "-lavfi", gifVf a, "-y", a.output_path]

/-- The single-pass command. -/
def singleCmd (a : ConvArgs) : List String :=
  baseCmd a ++ ["-vf", vfOptions a, "-y", a.output_path]

/-! ### Streaming stderr (the `iter(stderr.readline, '')` loop) -/

/-- A forward-only line stream with a read cursor. -/
structure LineStream where
  lines : List String
  pos : Nat
deriving DecidableEq, Repr

/-- Lines not yet consumed. -/
def LineStream.remaining (s : LineStream) : List String := s.lines.drop s.pos

/-- Model of `.read()`: everything from the cursor to the end of the stream. -/
def LineStream.readAll (s : LineStream) : String := String.join s.remaining

/-- Model of the `for line in iter(stderr.readline, '')` loop: it consumes
every remaining line and leaves the cursor at the end of the stream. -/
def LineStream.drainAll (s : LineStream) : List String × LineStream :=
  (s.remaining, ⟨s.lines, s.lines.length⟩)

/-- The event the loop body emits for one line (conversion.py lines 70-80):
parse the timestamp; when `conversion_duration > 0` compute the progress and,
if a callback was supplied, deliver it with label `'Creating GIF'`. -/
def lineEvent (a : ConvArgs) (line : String) : Option Event :=
  match searchTime line.data with
  | some (h, m, s, f) =>
    if 0 < a.conversion_duration then
      if a.hasCallback then
        some (.progressCb (progressValue a.high_quality a.conversion_duration
          (elapsedSeconds h m s f)) "Creating GIF")
      else none
    else none
  | none => none

/-- All events of the progress loop over the streamed stderr lines. -/
def loopEvents (a : ConvArgs) (lines : List String) : List Event :=
  lines.filterMap (lineEvent a)

/-! ### `run_conversion` (conversion.py lines 22-92) -/

/-- Result of the `try` body of `run_conversion`: outcome, filesystem, events,
and the value of the `palette_path` variable at exit (read by `finally`). -/
structure BodyOut where
  result : Except String Unit
  fs : FS
  events : List Event
  palette_path : Option String

/-- Tail of both pipeline branches: stream the final process's stderr through
the progress loop, wait, check the exit code, then check the artifact
(conversion.py lines 68-88).  `stderr.read()` in the failure message is taken
from the stream after the loop has drained it. -/
def finalStage (env : ConvEnv) (a : ConvArgs) (fs : FS) (evs : List Event)
    (pp : Option String) : BodyOut :=
  let stream : LineStream := ⟨env.finalLines, 0⟩
  let drained := stream.drainAll
  let evs2 := evs ++ loopEvents a drained.1
  let fs2 := applyWrite fs a.output_path env.finalWrites
  if env.finalExit ≠ 0 then
    ⟨.error ("FFmpeg failed: " ++ drained.2.readAll), fs2, evs2, pp⟩
  else if ¬ pathExists fs2 a.output_path ∨ getsize fs2 a.output_path = 0 then
    ⟨.error "Output GIF file was not created.", fs2, evs2, pp⟩
  else
    ⟨.ok (), fs2, evs2, pp⟩

/-- The `try` body of `run_conversion`. -/
def runConversionBody (env : ConvEnv) (a : ConvArgs) (fs : FS) : BodyOut :=
  if a.high_quality then
    let evs0 := if a.hasCallback then [Event.progressCb 0 "Generating Palette"] else []
    let pp := palettePathOf a
    let fs1 := applyWrite fs pp env.paletteWrites
    let evs1 := evs0 ++ [Event.invoke (paletteCmd a)]
    if env.paletteExit ≠ 0 then
      ⟨.error ("Palette generation failed: " ++ env.paletteErr), fs1, evs1, some pp⟩
    else
      let evs2 := evs1 ++ (if a.hasCallback then [Event.progressCb 20 "Creating GIF"] else [])
      let evs3 := evs2 ++ [Event.invoke (gifCmd a)]
      finalStage env a fs1 evs3 (some pp)
  else
    let evs0 := if a.hasCallback then [Event.progressCb 0 "Creating GIF"] else []
    let evs1 := evs0 ++ [Event.invoke (singleCmd a)]
    finalStage env a fs evs1 none

/-- One delete-if-exists step of the `finally` block:
`if os.path.exists(p): os.remove(p)`. -/
def cleanupStep (fs : FS) (p : String) : FS × List Event :=
  if pathExists fs p then (removeFile fs p, [Event.removed p]) else (fs, [])

/-- The `finally` block of `run_conversion` (conversion.py lines 90-92):
delete the input if it exists, then the palette if `palette_path` was set and
the file exists. -/
def runFinally (input : String) (pp : Option String) (fs : FS) : FS × List Event :=
  let s1 := cleanupStep fs input
  match pp with
  | some p =>
    let s2 := cleanupStep s1.1 p
    (s2.1, s1.2 ++ s2.2)
  | none => s1

/-- Overall result of `run_conversion`. -/
structure RunOut where
  result : Except String Unit
  fs : FS
  events : List Event

/-- `run_conversion`: the `try` body followed unconditionally by the
`finally` cleanup. -/
def run_conversion (env : ConvEnv) (a : ConvArgs) (fs : FS) : RunOut :=
  let b := runConversionBody env a fs
  let fin := runFinally a.input_path b.palette_path b.fs
  ⟨b.result, fin.1, b.events ++ fin.2⟩

/-- The guaranteed-finalizer combinator: whatever outcome, filesystem and
events the pipeline body produced — including an unexpected fault modelled as
an arbitrary `BodyOut` — the `finally` cleanup runs on the resulting
filesystem before the worker exits. -/
def runWithFinalizer (input : String) (b : BodyOut) : RunOut :=
  let fin := runFinally input b.palette_path b.fs
  ⟨b.result, fin.1, b.events ++ fin.2⟩

/-! ### Duration probe (`get_video_duration`) -/

/-- Outcome of the `subprocess.run` call made by the probes: normal exit 0
with captured stdout, non-zero exit (`CalledProcessError` under
`check=True`), or a missing binary (`FileNotFoundError`). -/
inductive ProbeOutcome where
  | success (stdout : String)
  | calledProcessError
  | fileNotFound
deriving DecidableEq, Repr

/-- A Python exception escaping a modelled function. -/
inductive PyExn where
  | valueError (invalid : String)
deriving DecidableEq, Repr

/-- Render of `str(e)` for a propagated exception (CPython wording; the
original text is carried verbatim). -/
def pyExnStr : PyExn → String
  | .valueError s => "could not convert string to float: " ++ s

/-- Core `get_video_duration` (conversion.py lines 5-20): catches
`CalledProcessError` and `FileNotFoundError` and returns `None`; a
`ValueError` from `float(result.stdout)` is NOT caught and propagates. -/
def get_video_duration (outcome : ProbeOutcome) : Except PyExn (Option ℚ) :=
  match outcome with
  | .success out =>
    match pyFloat out with
    | some q => .ok (some q)
    | none => .error (.valueError out)
  | .calledProcessError => .ok none
  | .fileNotFound => .ok none

/-- Desktop `get_video_duration` (desktop_app/app.py lines 67-87): catches
`CalledProcessError`, `ValueError` and `FileNotFoundError`, returning `None`
in every failure case — it never propagates an exception. -/
def desktop_get_video_duration (outcome : ProbeOutcome) : Option ℚ :=
  match outcome with
  | .success out => pyFloat (pyStrip out)
  | .calledProcessError => none
  | .fileNotFound => none

/-- Conversion-window computation shared by all three variants
(desktop_app/app.py lines 304-308, webapp/app.py lines 104-108,
webapp/tasks.py lines 31-35). -/
def computeConversionDuration (start_time : ℚ) (end_time : Option ℚ)
    (video_duration : ℚ) : ℚ :=
  match end_time with
  | some e => min e video_duration - start_time
  | none => video_duration - start_time

/-! ### Desktop variant (`desktop_app/app.py`) -/

/-- One entry of the in-memory `tasks_db` dictionary.  The record is created
as `{'state': 'PENDING', 'output_path': output_path}` and later keys are
added/overwritten in place, so absent keys are `none`. -/
structure TaskRecord where
  state : String
  output_path : Option String := none
  error : Option String := none
deriving DecidableEq, Repr

/-- Parameters of the desktop `ConversionJob` dataclass. -/
structure ConversionJob where
  ffmpeg_path : String
  input_path : String
  output_path : String
  start_time : ℚ
  end_time : Option ℚ
  fps : Nat
  width : Nat
  conversion_duration : ℚ
  high_quality : Bool
deriving DecidableEq, Repr

/-- The single ffmpeg invocation's outcome in the desktop worker: a process
exit (with captured stderr), or an unexpected exception of some type raised
mid-worker. -/
inductive DesktopProcOutcome where
  | exited (code : ℤ) (stderr : String)
  | fault (typeName : String)
deriving DecidableEq, Repr

/-- Environment of one desktop worker run. -/
structure DesktopEnv where
  proc : DesktopProcOutcome
  writesOutput : Option Nat
deriving DecidableEq, Repr

/-- The video filters list of the desktop worker (desktop_app/app.py
lines 118-125): high-quality mode appends a combined
palettegen/paletteuse filter to the SAME single command. -/
def desktopFilters (job : ConversionJob) : List String :=
  ["fps=" ++ toString job.fps, "scale=" ++ toString job.width ++ ":-1:flags=lanczos"] ++
    (if job.high_quality then ["split[s0][s1];[s0]palettegen[p];[s1][p]paletteuse"] else [])

/-- The one command the desktop worker builds (desktop_app/app.py
lines 108-127). -/
def desktopCommand (job : ConversionJob) : List String :=
  [job.ffmpeg_path, "-y", "-ss", toString job.start_time, "-i", job.input_path] ++
    (match job.end_time with
     | some e => ["-to", toString e]
     | none => []) ++
    ["-vf", String.intercalate "," (desktopFilters job), job.output_path]

/-- Generic UI message recorded on an FFmpeg failure (desktop_app/app.py
line 145). -/
def desktopFfmpegErrorMsg : String :=
  "変換エラー (FFmpeg)。詳細はログファイルを確認してください。"

/-- Generic UI message recorded on an unexpected fault (desktop_app/app.py
line 161). -/
def desktopFaultErrorMsg (typeName : String) : String :=
  "変換エラー (" ++ typeName ++ ")。詳細はログファイルを確認してください。"

/-- Desktop `conversion_worker_thread` (desktop_app/app.py lines 102-177):
runs the single command; on exit 0 marks SUCCESS (no artifact check), on a
`CalledProcessError` or any other exception marks FAILURE with a generic
message (the captured stderr goes to the log only); the `finally` block
deletes the input file if it exists. -/
def conversion_worker_thread (env : DesktopEnv) (job : ConversionJob)
    (tr : TaskRecord) (fs : FS) : TaskRecord × FS × List Event :=
  let fs1 := applyWrite fs job.output_path env.writesOutput
  let tr2 :=
    match env.proc with
    | .exited 0 _ => { tr with state := "SUCCESS", output_path := some job.output_path }
    | .exited _ _ => { tr with state := "FAILURE", error := some desktopFfmpegErrorMsg }
    | .fault ty => { tr with state := "FAILURE", error := some (desktopFaultErrorMsg ty) }
  let fin := cleanupStep fs1 job.input_path
  (tr2, fin.1, Event.invoke (desktopCommand job) :: fin.2)

/-- Desktop `start_conversion_task`, from the probe onward (desktop_app/app.py
lines 298-316): probe the copied input; on probe failure delete the input and
return HTTP 500 with no job created; compute the conversion window; when it
is ≤ 0 delete the input and return HTTP 400 with no job created; otherwise
insert the initial record `{'state': 'PENDING', 'output_path': output_path}`
into `tasks_db`. -/
def desktop_start_conversion_task (probeOut : ProbeOutcome) (task_id : String)
    (input_path output_path : String) (start_time : ℚ) (end_time : Option ℚ)
    (db : List (String × TaskRecord)) (fs : FS) :
    Except (String × Nat) String × List (String × TaskRecord) × FS × List Event :=
  match desktop_get_video_duration probeOut with
  | none =>
    (.error ("Could not get video information.", 500), db,
      removeFile fs input_path, [Event.removed input_path])
  | some video_duration =>
    let conversion_duration := computeConversionDuration start_time end_time video_duration
    if conversion_duration ≤ 0 then
      (.error ("Conversion duration must be positive.", 400), db,
        removeFile fs input_path, [Event.removed input_path])
    else
      (.ok task_id,
        (task_id, { state := "PENDING", output_path := some output_path }) :: db,
        fs, [])

/-! ### Webapp variant (`webapp/app.py`) -/

/-- One status-file snapshot as written by `update_task_status`
(webapp/app.py lines 69-81).  Each write replaces the whole file, so absent
keys are `none`. -/
structure StatusRecord where
  state : String
  progress : Option ℤ := none
  step : Option String := none
  result : Option (String × String) := none
  error : Option String := none
deriving DecidableEq, Repr

/-- Status written at submission (webapp/app.py line 205). -/
def stPending : StatusRecord := { state := "PENDING" }

/-- Status written by the progress callback and the probe step. -/
def stProgress (p : ℤ) (s : String) : StatusRecord :=
  { state := "PROGRESS", progress := some p, step := some s }

/-- Status written on success (webapp/app.py line 139). -/
def stSuccess (output_path : String) : StatusRecord :=
  { state := "SUCCESS", result := some (output_path, basename output_path) }

/-- Status written on failure (webapp/app.py line 143). -/
def stFailure (e : String) : StatusRecord :=
  { state := "FAILURE", error := some e }

/-- Step label written before the probe (webapp/app.py line 98). -/
def probeStepMsg : String := "動画情報の取得中..."

/-- Message of the exception raised when the probe returns `None`
(webapp/app.py line 101). -/
def probeFailMsg : String := "動画の情報を取得できませんでした。"

/-- Message of the `ValueError` raised when the window is ≤ 0
(webapp/app.py line 111). -/
def windowMsg : String := "変換区間が0秒以下です。開始時間と終了時間を確認してください。"

/-- Message of the exception raised when the artifact re-check fails
(webapp/app.py line 135). -/
def artifactMsg : String := "GIFファイルの生成に失敗しました。ファイルが空か、作成されませんでした。"

/-- The status write a `run_conversion` callback event corresponds to. -/
def statusOfEvent : Event → Option StatusRecord
  | .progressCb p l => some (stProgress p l)
  | _ => none

/-- Environment of one webapp worker run. -/
structure WebappEnv where
  probe : ProbeOutcome
  conv : ConvEnv
deriving DecidableEq, Repr

/-- Webapp `conversion_worker` (webapp/app.py lines 94-152): writes a probe
progress status; probes via the CORE `get_video_duration` (whose propagated
`ValueError`, like every other exception of the body, is caught by the
worker's `except Exception` and recorded as FAILURE); computes the window and
fails on ≤ 0; otherwise drives `run_conversion` with a status-writing
callback, re-checks the artifact, and writes SUCCESS; its own `finally`
deletes the input if it still exists.  Returns the sequence of status writes,
the final filesystem and the event trace. -/
def webapp_conversion_worker (wenv : WebappEnv) (ffmpeg_path input_path output_path : String)
    (start_time : ℚ) (end_time : Option ℚ) (fps width : Nat) (high_quality : Bool)
    (fs : FS) : List StatusRecord × FS × List Event :=
  match get_video_duration wenv.probe with
  | .error e =>
    let fin := cleanupStep fs input_path
    ([stProgress 0 probeStepMsg, stFailure (pyExnStr e)], fin.1, fin.2)
  | .ok none =>
    let fin := cleanupStep fs input_path
    ([stProgress 0 probeStepMsg, stFailure probeFailMsg], fin.1, fin.2)
  | .ok (some video_duration) =>
    let conversion_duration := computeConversionDuration start_time end_time video_duration
    if conversion_duration ≤ 0 then
      let fin := cleanupStep fs input_path
      ([stProgress 0 probeStepMsg, stFailure windowMsg], fin.1, fin.2)
    else
      let a : ConvArgs :=
        ⟨ffmpeg_path, input_path, output_path, start_time, end_time, fps, width,
          conversion_duration, high_quality, true⟩
      let r := run_conversion wenv.conv a fs
      let progressWrites := r.events.filterMap statusOfEvent
      let fin := cleanupStep r.fs input_path
      match r.result with
      | .error msg =>
        (stProgress 0 probeStepMsg :: progressWrites ++ [stFailure msg],
          fin.1, r.events ++ fin.2)
      | .ok _ =>
        if ¬ pathExists r.fs output_path ∨ getsize r.fs output_path = 0 then
          (stProgress 0 probeStepMsg :: progressWrites ++ [stFailure artifactMsg],
            fin.1, r.events ++ fin.2)
        else
          (stProgress 0 probeStepMsg :: progressWrites ++ [stSuccess output_path],
            fin.1, r.events ++ fin.2)

/-- Webapp `start_conversion_task` (webapp/app.py lines 175-229) followed by
its worker thread: after request validation the uploaded file is saved, the
`PENDING` status file is written — BEFORE any probe — and the worker runs
asynchronously.  The returned list is every status snapshot ever stored for
the submission, in write order. -/
def webapp_submit_and_run (wenv : WebappEnv) (uploadSize : Nat)
    (ffmpeg_path input_path output_path : String) (start_time : ℚ)
    (end_time : Option ℚ) (fps width : Nat) (high_quality : Bool) (fs : FS) :
    List StatusRecord × FS × List Event :=
  let fs1 := writeFile fs input_path uploadSize
  let w := webapp_conversion_worker wenv ffmpeg_path input_path output_path
    start_time end_time fps width high_quality fs1
  (stPending :: w.1, w.2.1, w.2.2)

/-! ### Trace observations -/

/-- The external-process invocations of a trace, in order. -/
def invokeCmds (evs : List Event) : List (List String) :=
  evs.filterMap fun e =>
    match e with
    | .invoke c => some c
    | _ => none

/-- How many times path `p` was actually removed during a trace. -/
def countRemoved (evs : List Event) (p : String) : Nat :=
  (evs.filter fun e => decide (e = Event.removed p)).length

/-! ## Supporting lemmas -/

lemma elapsedSeconds_nonneg (h m s f : Nat) : 0 ≤ elapsedSeconds h m s f := by
  unfold elapsedSeconds
  positivity

lemma baseProgress_nonneg (hq : Bool) : 0 ≤ baseProgress hq := by
  cases hq <;> norm_num [baseProgress]

lemma baseProgress_le (hq : Bool) : baseProgress hq ≤ 100 := by
  cases hq <;> norm_num [baseProgress]

lemma rawProgress_nonneg (hq : Bool) (dur el : ℚ) (hdur : 0 < dur) (hel : 0 ≤ el) :
    0 ≤ baseProgress hq + el / dur * (100 - baseProgress hq) := by
  have h1 : (0:ℚ) ≤ el / dur := div_nonneg hel hdur.le
  have h2 : (0:ℚ) ≤ 100 - baseProgress hq := by
    have := baseProgress_le hq
    linarith
  have h3 := mul_nonneg h1 h2
  have h4 := baseProgress_nonneg hq
  linarith

lemma progressValue_nonneg (hq : Bool) (dur el : ℚ) (hdur : 0 < dur) (hel : 0 ≤ el) :
    0 ≤ progressValue hq dur el := by
  unfold progressValue pyTrunc
  have hv := rawProgress_nonneg hq dur el hdur hel
  rw [if_pos hv]
  exact le_min (by norm_num) (Int.floor_nonneg.mpr hv)

lemma progressValue_le (hq : Bool) (dur el : ℚ) : progressValue hq dur el ≤ 100 :=
  min_le_left _ _

lemma progressValue_eq_clamp (hq : Bool) (dur el : ℚ) (hdur : 0 < dur) (hel : 0 ≤ el) :
    progressValue hq dur el =
      pyTrunc (min 100 (max 0 (baseProgress hq + el / dur * (100 - baseProgress hq)))) := by
  have hv := rawProgress_nonneg hq dur el hdur hel
  rw [max_eq_right hv]
  unfold progressValue pyTrunc
  rw [if_pos hv, if_pos (le_min (by norm_num) hv)]
  have hmin : (⌊min (100:ℚ) (baseProgress hq + el / dur * (100 - baseProgress hq))⌋ : ℤ) =
      min ⌊(100:ℚ)⌋ ⌊baseProgress hq + el / dur * (100 - baseProgress hq)⌋ :=
    Int.floor_mono.map_min
  rw [hmin]
  norm_num

/-! ### Equation lemmas for `run_conversion` -/

lemma finalStage_fail (env : ConvEnv) (a : ConvArgs) (fs : FS) (evs : List Event)
    (pp : Option String) (hfe : env.finalExit ≠ 0) :
    finalStage env a fs evs pp =
      ⟨.error "FFmpeg failed: ", applyWrite fs a.output_path env.finalWrites,
        evs ++ loopEvents a env.finalLines, pp⟩ := by
  unfold finalStage LineStream.drainAll LineStream.remaining LineStream.readAll
  dsimp only
  rw [if_pos hfe]
  simp [LineStream.remaining, List.drop_length, List.drop_zero, String.join,
    String.append_empty]

lemma finalStage_exit0 (env : ConvEnv) (a : ConvArgs) (fs : FS) (evs : List Event)
    (pp : Option String) (hfe : env.finalExit = 0) :
    finalStage env a fs evs pp =
      if ¬ pathExists (applyWrite fs a.output_path env.finalWrites) a.output_path ∨
          getsize (applyWrite fs a.output_path env.finalWrites) a.output_path = 0 then
        ⟨.error "Output GIF file was not created.",
          applyWrite fs a.output_path env.finalWrites,
          evs ++ loopEvents a env.finalLines, pp⟩
      else
        ⟨.ok (), applyWrite fs a.output_path env.finalWrites,
          evs ++ loopEvents a env.finalLines, pp⟩ := by
  unfold finalStage LineStream.drainAll LineStream.remaining LineStream.readAll
  dsimp only
  rw [if_neg (by simp [hfe])]
  simp

lemma finalStage_events (env : ConvEnv) (a : ConvArgs) (fs : FS) (evs : List Event)
    (pp : Option String) :
    (finalStage env a fs evs pp).events = evs ++ loopEvents a env.finalLines := by
  unfold finalStage LineStream.drainAll LineStream.remaining
  dsimp only
  split_ifs <;> simp

lemma finalStage_fs (env : ConvEnv) (a : ConvArgs) (fs : FS) (evs : List Event)
    (pp : Option String) :
    (finalStage env a fs evs pp).fs = applyWrite fs a.output_path env.finalWrites := by
  unfold finalStage LineStream.drainAll LineStream.remaining
  dsimp only
  split_ifs <;> rfl

lemma finalStage_pp (env : ConvEnv) (a : ConvArgs) (fs : FS) (evs : List Event)
    (pp : Option String) :
    (finalStage env a fs evs pp).palette_path = pp := by
  unfold finalStage LineStream.drainAll LineStream.remaining
  dsimp only
  split_ifs <;> rfl

lemma body_single (env : ConvEnv) (a : ConvArgs) (fs : FS)
    (hq : a.high_quality = false) :
    runConversionBody env a fs =
      finalStage env a fs
        ((if a.hasCallback then [Event.progressCb 0 "Creating GIF"] else []) ++
          [Event.invoke (singleCmd a)]) none := by
  unfold runConversionBody
  rw [if_neg (by simp [hq])]

lemma body_hq_fail (env : ConvEnv) (a : ConvArgs) (fs : FS)
    (hq : a.high_quality = true) (hpe : env.paletteExit ≠ 0) :
    runConversionBody env a fs =
      ⟨.error ("Palette generation failed: " ++ env.paletteErr),
        applyWrite fs (palettePathOf a) env.paletteWrites,
        (if a.hasCallback then [Event.progressCb 0 "Generating Palette"] else []) ++
          [Event.invoke (paletteCmd a)],
        some (palettePathOf a)⟩ := by
  unfold runConversionBody
  rw [if_pos hq]
  dsimp only
  rw [if_pos hpe]

lemma body_hq_ok (env : ConvEnv) (a : ConvArgs) (fs : FS)
    (hq : a.high_quality = true) (hpe : env.paletteExit = 0) :
    runConversionBody env a fs =
      finalStage env a (applyWrite fs (palettePathOf a) env.paletteWrites)
        ((if a.hasCallback then [Event.progressCb 0 "Generating Palette"] else []) ++
            [Event.invoke (paletteCmd a)] ++
            (if a.hasCallback then [Event.progressCb 20 "Creating GIF"] else []) ++
          [Event.invoke (gifCmd a)]) (some (palettePathOf a)) := by
  unfold runConversionBody
  rw [if_pos hq]
  dsimp only
  rw [if_neg (by simp [hpe])]

lemma run_conversion_result (env : ConvEnv) (a : ConvArgs) (fs : FS) :
    (run_conversion env a fs).result = (runConversionBody env a fs).result := rfl

lemma run_conversion_events (env : ConvEnv) (a : ConvArgs) (fs : FS) :
    (run_conversion env a fs).events =
      (runConversionBody env a fs).events ++
        (runFinally a.input_path (runConversionBody env a fs).palette_path
          (runConversionBody env a fs).fs).2 := rfl

lemma run_conversion_fs (env : ConvEnv) (a : ConvArgs) (fs : FS) :
    (run_conversion env a fs).fs =
      (runFinally a.input_path (runConversionBody env a fs).palette_path
        (runConversionBody env a fs).fs).1 := rfl

/-! ### Filesystem and cleanup lemmas -/

lemma applyWrite_other (fs : FS) (p : String) (w : Option Nat) (q : String)
    (h : q ≠ p) : applyWrite fs p w q = fs q := by
  cases w <;> simp [applyWrite, writeFile, h]

lemma applyWrite_isSome (fs : FS) (p : String) (w : Option Nat) (q : String)
    (h : pathExists fs q = true) : pathExists (applyWrite fs p w) q = true := by
  cases w with
  | none => exact h
  | some sz =>
    by_cases hqp : q = p <;> simp [applyWrite, writeFile, pathExists, hqp]
    simpa [pathExists, hqp] using h

lemma cleanupStep_fs_other (fs : FS) (p q : String) (h : q ≠ p) :
    (cleanupStep fs p).1 q = fs q := by
  unfold cleanupStep
  split_ifs <;> simp [removeFile, h]

lemma cleanupStep_fs_self (fs : FS) (p : String) : (cleanupStep fs p).1 p = none := by
  unfold cleanupStep
  split_ifs with h
  · simp [removeFile]
  · unfold pathExists at h
    cases hfp : fs p with
    | none => exact hfp
    | some v => rw [hfp] at h; simp at h

lemma cleanupStep_events_absent (fs : FS) (p : String)
    (h : pathExists fs p = false) : (cleanupStep fs p).2 = [] := by
  unfold cleanupStep
  rw [if_neg (by simp [h])]

lemma cleanupStep_events_present (fs : FS) (p : String)
    (h : pathExists fs p = true) : (cleanupStep fs p).2 = [Event.removed p] := by
  unfold cleanupStep
  rw [if_pos h]

lemma runFinally_none_eq (input : String) (fs : FS) :
    runFinally input none fs = cleanupStep fs input := rfl

lemma runFinally_some_eq (input p : String) (fs : FS) :
    runFinally input (some p) fs =
      ((cleanupStep (cleanupStep fs input).1 p).1,
        (cleanupStep fs input).2 ++ (cleanupStep (cleanupStep fs input).1 p).2) := rfl

lemma runFinally_fs_input (input : String) (pp : Option String) (fs : FS) :
    (runFinally input pp fs).1 input = none := by
  cases pp with
  | none => exact cleanupStep_fs_self fs input
  | some p =>
    rw [runFinally_some_eq]
    by_cases h : input = p
    · subst h
      exact cleanupStep_fs_self _ input
    · rw [cleanupStep_fs_other _ _ _ h]
      exact cleanupStep_fs_self fs input

lemma runFinally_fs_some (input p : String) (fs : FS) :
    (runFinally input (some p) fs).1 p = none := by
  rw [runFinally_some_eq]
  exact cleanupStep_fs_self _ p

lemma runFinally_fs_other (input : String) (pp : Option String) (fs : FS) (q : String)
    (h1 : q ≠ input) (h2 : ∀ p, pp = some p → q ≠ p) :
    (runFinally input pp fs).1 q = fs q := by
  cases pp with
  | none => exact cleanupStep_fs_other fs input q h1
  | some p =>
    rw [runFinally_some_eq]
    rw [cleanupStep_fs_other _ _ _ (h2 p rfl)]
    exact cleanupStep_fs_other fs input q h1

/-! ### Event-trace lemmas -/

lemma lineEvent_shape (a : ConvArgs) (line : String) (e : Event)
    (h : lineEvent a line = some e) : ∃ p, e = .progressCb p "Creating GIF" := by
  unfold lineEvent at h
  split at h
  next =>
    split at h
    next =>
      split at h
      next => exact ⟨_, (Option.some.inj h).symm⟩
      next => exact absurd h (by simp)
    next => exact absurd h (by simp)
  next => exact absurd h (by simp)

lemma mem_loopEvents_shape (a : ConvArgs) (lines : List String) (e : Event)
    (h : e ∈ loopEvents a lines) : ∃ p, e = .progressCb p "Creating GIF" := by
  rw [loopEvents, List.mem_filterMap] at h
  obtain ⟨l, _, hl⟩ := h
  exact lineEvent_shape a l e hl

lemma invokeCmds_append (xs ys : List Event) :
    invokeCmds (xs ++ ys) = invokeCmds xs ++ invokeCmds ys := by
  simp [invokeCmds, List.filterMap_append]

lemma invokeCmds_loopEvents (a : ConvArgs) (lines : List String) :
    invokeCmds (loopEvents a lines) = [] := by
  rw [invokeCmds, List.filterMap_eq_nil]
  intro e he
  obtain ⟨p, rfl⟩ := mem_loopEvents_shape a lines e he
  rfl

lemma invokeCmds_cleanupStep (fs : FS) (p : String) :
    invokeCmds (cleanupStep fs p).2 = [] := by
  unfold cleanupStep
  split_ifs <;> rfl

lemma invokeCmds_runFinally (input : String) (pp : Option String) (fs : FS) :
    invokeCmds (runFinally input pp fs).2 = [] := by
  cases pp with
  | none => exact invokeCmds_cleanupStep fs input
  | some p =>
    rw [runFinally_some_eq, invokeCmds_append, invokeCmds_cleanupStep,
      invokeCmds_cleanupStep]
    rfl

lemma countRemoved_append (xs ys : List Event) (p : String) :
    countRemoved (xs ++ ys) p = countRemoved xs p + countRemoved ys p := by
  simp [countRemoved, List.filter_append]

lemma countRemoved_of_not_mem (evs : List Event) (p : String)
    (h : Event.removed p ∉ evs) : countRemoved evs p = 0 := by
  rw [countRemoved, List.length_eq_zero, List.filter_eq_nil]
  intro e he
  simp only [decide_eq_true_eq]
  intro heq
  exact h (heq ▸ he)

lemma countRemoved_loopEvents (a : ConvArgs) (lines : List String) (p : String) :
    countRemoved (loopEvents a lines) p = 0 := by
  refine countRemoved_of_not_mem _ _ fun h => ?_
  obtain ⟨q, hq'⟩ := mem_loopEvents_shape a lines _ h
  exact absurd hq' (by simp)

lemma countRemoved_removed_self (p : String) :
    countRemoved [Event.removed p] p = 1 := by
  simp [countRemoved]

lemma countRemoved_removed_other (p q : String) (h : q ≠ p) :
    countRemoved [Event.removed q] p = 0 := by
  simp [countRemoved, h]

lemma removed_not_mem_loopEvents (a : ConvArgs) (lines : List String) (p : String) :
    Event.removed p ∉ loopEvents a lines := fun h => by
  obtain ⟨q, hq'⟩ := mem_loopEvents_shape a lines _ h
  exact absurd hq' (by simp)

lemma artifact_absent_iff (fs : FS) (p : String) :
    (¬ pathExists fs p = true ∨ getsize fs p = 0) ↔ getsize fs p = 0 := by
  unfold pathExists getsize
  cases h : fs p <;> simp [h]

/-! ### Body-level lemmas -/

lemma body_palette_path (env : ConvEnv) (a : ConvArgs) (fs : FS) :
    (runConversionBody env a fs).palette_path =
      if a.high_quality then some (palettePathOf a) else none := by
  by_cases hq : a.high_quality = true
  · by_cases hpe : env.paletteExit = 0
    · rw [body_hq_ok env a fs hq hpe, finalStage_pp, if_pos hq]
    · rw [body_hq_fail env a fs hq hpe]
      simp [hq]
  · have hq' : a.high_quality = false := by simpa using hq
    rw [body_single env a fs hq', finalStage_pp]
    simp [hq']

lemma body_fs_other (env : ConvEnv) (a : ConvArgs) (fs : FS) (q : String)
    (h1 : q ≠ palettePathOf a) (h2 : q ≠ a.output_path) :
    (runConversionBody env a fs).fs q = fs q := by
  by_cases hq : a.high_quality = true
  · by_cases hpe : env.paletteExit = 0
    · rw [body_hq_ok env a fs hq hpe, finalStage_fs,
        applyWrite_other _ _ _ _ h2, applyWrite_other _ _ _ _ h1]
    · rw [body_hq_fail env a fs hq hpe]
      exact applyWrite_other _ _ _ _ h1
  · rw [body_single env a fs (by simpa using hq), finalStage_fs,
      applyWrite_other _ _ _ _ h2]

lemma body_fs_palette (env : ConvEnv) (a : ConvArgs) (fs : FS)
    (hq : a.high_quality = true) (hw : env.paletteWrites.isSome = true) :
    pathExists (runConversionBody env a fs).fs (palettePathOf a) = true := by
  obtain ⟨sz, hsz⟩ := Option.isSome_iff_exists.mp hw
  by_cases hpe : env.paletteExit = 0
  · rw [body_hq_ok env a fs hq hpe, finalStage_fs]
    apply applyWrite_isSome
    rw [hsz]
    simp [applyWrite, writeFile, pathExists]
  · rw [body_hq_fail env a fs hq hpe]
    show pathExists (applyWrite fs (palettePathOf a) env.paletteWrites) _ = true
    rw [hsz]
    simp [applyWrite, writeFile, pathExists]

lemma body_no_removed (env : ConvEnv) (a : ConvArgs) (fs : FS) (p : String) :
    Event.removed p ∉ (runConversionBody env a fs).events := by
  by_cases hq : a.high_quality = true
  · by_cases hpe : env.paletteExit = 0
    · rw [body_hq_ok env a fs hq hpe, finalStage_events]
      by_cases hcb : a.hasCallback = true <;>
        simp [hcb, removed_not_mem_loopEvents]
    · rw [body_hq_fail env a fs hq hpe]
      by_cases hcb : a.hasCallback = true <;> simp [hcb]
  · rw [body_single env a fs (by simpa using hq), finalStage_events]
    by_cases hcb : a.hasCallback = true <;>
      simp [hcb, removed_not_mem_loopEvents]

/-! ### Webapp status-write lemmas -/

lemma mem_statusOfEvent (evs : List Event) (r : StatusRecord)
    (h : r ∈ evs.filterMap statusOfEvent) : ∃ p l, r = stProgress p l := by
  rw [List.mem_filterMap] at h
  obtain ⟨e, _, he⟩ := h
  cases e with
  | invoke c => simp [statusOfEvent] at he
  | progressCb p l => exact ⟨p, l, by simpa [statusOfEvent] using he.symm⟩
  | removed p => simp [statusOfEvent] at he

lemma webapp_writes_shape (wenv : WebappEnv) (usz : Nat) (fp ip op : String)
    (st : ℚ) (et : Option ℚ) (fps w : Nat) (hq : Bool) (fs : FS) (r : StatusRecord)
    (hmem : r ∈ (webapp_submit_and_run wenv usz fp ip op st et fps w hq fs).1) :
    r = stPending ∨ (∃ p l, r = stProgress p l) ∨ (∃ m, r = stFailure m) ∨
      ∃ o, r = stSuccess o := by
  unfold webapp_submit_and_run at hmem
  dsimp only at hmem
  rw [List.mem_cons] at hmem
  rcases hmem with rfl | hmem
  · exact Or.inl rfl
  unfold webapp_conversion_worker at hmem
  rcases hgv : get_video_duration wenv.probe with e | od
  · rw [hgv] at hmem
    dsimp only at hmem
    simp only [List.mem_cons, List.not_mem_nil, or_false] at hmem
    rcases hmem with rfl | rfl
    · exact Or.inr (Or.inl ⟨_, _, rfl⟩)
    · exact Or.inr (Or.inr (Or.inl ⟨_, rfl⟩))
  · rcases od with _ | d
    · rw [hgv] at hmem
      dsimp only at hmem
      simp only [List.mem_cons, List.not_mem_nil, or_false] at hmem
      rcases hmem with rfl | rfl
      · exact Or.inr (Or.inl ⟨_, _, rfl⟩)
      · exact Or.inr (Or.inr (Or.inl ⟨_, rfl⟩))
    · rw [hgv] at hmem
      dsimp only at hmem
      by_cases hcd : computeConversionDuration st et d ≤ 0
      · rw [if_pos hcd] at hmem
        simp only [List.mem_cons, List.not_mem_nil, or_false] at hmem
        rcases hmem with rfl | rfl
        · exact Or.inr (Or.inl ⟨_, _, rfl⟩)
        · exact Or.inr (Or.inr (Or.inl ⟨_, rfl⟩))
      · rw [if_neg hcd] at hmem
        rcases hr : (run_conversion wenv.conv
            ⟨fp, ip, op, st, et, fps, w, computeConversionDuration st et d, hq, true⟩
            (writeFile fs ip usz)).result with msg | u
        · rw [hr] at hmem
          simp only [List.mem_cons, List.mem_append, List.mem_singleton, List.not_mem_nil,
              or_false] at hmem
          rcases hmem with (rfl | hmem) | rfl
          · exact Or.inr (Or.inl ⟨_, _, rfl⟩)
          · obtain ⟨p, l, rfl⟩ := mem_statusOfEvent _ _ hmem
            exact Or.inr (Or.inl ⟨_, _, rfl⟩)
          · exact Or.inr (Or.inr (Or.inl ⟨_, rfl⟩))
        · rw [hr] at hmem
          by_cases hart : ¬ pathExists (run_conversion wenv.conv
              ⟨fp, ip, op, st, et, fps, w, computeConversionDuration st et d, hq, true⟩
              (writeFile fs ip usz)).fs op = true ∨
              getsize (run_conversion wenv.conv
                ⟨fp, ip, op, st, et, fps, w, computeConversionDuration st et d, hq, true⟩
                (writeFile fs ip usz)).fs op = 0
          · rw [if_pos hart] at hmem
            simp only [List.mem_cons, List.mem_append, List.mem_singleton, List.not_mem_nil,
              or_false] at hmem
            rcases hmem with (rfl | hmem) | rfl
            · exact Or.inr (Or.inl ⟨_, _, rfl⟩)
            · obtain ⟨p, l, rfl⟩ := mem_statusOfEvent _ _ hmem
              exact Or.inr (Or.inl ⟨_, _, rfl⟩)
            · exact Or.inr (Or.inr (Or.inl ⟨_, rfl⟩))
          · rw [if_neg hart] at hmem
            simp only [List.mem_cons, List.mem_append, List.mem_singleton, List.not_mem_nil,
              or_false] at hmem
            rcases hmem with (rfl | hmem) | rfl
            · exact Or.inr (Or.inl ⟨_, _, rfl⟩)
            · obtain ⟨p, l, rfl⟩ := mem_statusOfEvent _ _ hmem
              exact Or.inr (Or.inl ⟨_, _, rfl⟩)
            · exact Or.inr (Or.inr (Or.inr ⟨_, rfl⟩))

/-! ## Claim theorems -/

/-- C5: the progress parser emits an event iff the line contains a token
matching `time=HH:MM:SS.hh` (the parser is invoked with a conversion-window
duration > 0); on a match it computes
`elapsed = h*3600 + m*60 + s + hundredths/100` and the progress value
`clamp(0,100, offset + (elapsed/duration)*(100-offset))` truncated to an
integer, `offset` being the stage offset; in particular `"time=00:01:30.50"`
with duration 90 and offset 0 yields 100, `"time=00:00:45.00"` with duration
90 and offset 0 yields 50, and `"time=00:00:45.00"` with duration 90 and
offset 20 yields 60; non-matching lines produce no event. -/
theorem C5_progress_contract :
    (∀ (hq : Bool) (dur : ℚ) (line : String), 0 < dur →
      ((progressEventOfLine hq dur line = none ↔ searchTime line.data = none) ∧
        ∀ h m s f, searchTime line.data = some (h, m, s, f) →
          progressEventOfLine hq dur line =
            some (pyTrunc (min 100 (max 0 (baseProgress hq +
              elapsedSeconds h m s f / dur * (100 - baseProgress hq)))))))
    ∧ progressEventOfLine false 90 "time=00:01:30.50" = some 100
    ∧ progressEventOfLine false 90 "time=00:00:45.00" = some 50
    ∧ progressEventOfLine true 90 "time=00:00:45.00" = some 60 := by
  refine ⟨?_, ?_, ?_, ?_⟩
  · intro hq dur line hdur
    constructor
    · rcases hs : searchTime line.data with _ | ⟨h, m, s, f⟩
      · simp [progressEventOfLine, hs]
      · simp [progressEventOfLine, hs, hdur]
    · intro h m s f hs
      simp only [progressEventOfLine, hs]
      rw [if_pos hdur]
      exact congrArg some
        (progressValue_eq_clamp hq dur _ hdur (elapsedSeconds_nonneg h m s f))
  · have hs : searchTime "time=00:01:30.50".data = some (0, 1, 30, 50) := by decide
    simp only [progressEventOfLine, hs]
    rw [if_pos (by norm_num : (0:ℚ) < 90)]
    norm_num [progressValue, baseProgress, elapsedSeconds, pyTrunc]
  · have hs : searchTime "time=00:00:45.00".data = some (0, 0, 45, 0) := by decide
    simp only [progressEventOfLine, hs]
    rw [if_pos (by norm_num : (0:ℚ) < 90)]
    norm_num [progressValue, baseProgress, elapsedSeconds, pyTrunc]
  · have hs : searchTime "time=00:00:45.00".data = some (0, 0, 45, 0) := by decide
    simp only [progressEventOfLine, hs]
    rw [if_pos (by norm_num : (0:ℚ) < 90)]
    norm_num [progressValue, baseProgress, elapsedSeconds, pyTrunc]

/-- Witness for C5 at `hq = true`, `duration = 90`,
`line = "time=00:00:45.00"`. -/
theorem C5_witness :
    (0:ℚ) < 90 ∧
    progressEventOfLine true 90 "time=00:00:45.00" =
      some (pyTrunc (min 100 (max 0 (baseProgress true +
        elapsedSeconds 0 0 45 0 / 90 * (100 - baseProgress true))))) :=
  ⟨by decide,
    (C5_progress_contract.1 true 90 "time=00:00:45.00" (by decide)).2 0 0 45 0 (by decide)⟩

/-- C10: in the progress loop of `run_conversion`, a progress event is
delivered to the callback from a parsed timestamp line only when
`conversion_duration > 0` (so the division is guarded), and every delivered
progress value lies between 0 and 100 inclusive. -/
theorem C10_progress_guard :
    ∀ (a : ConvArgs) (line : String) (p : ℤ) (l : String),
      lineEvent a line = some (.progressCb p l) →
      0 < a.conversion_duration ∧ 0 ≤ p ∧ p ≤ 100 := by
  intro a line p l hev
  unfold lineEvent at hev
  split at hev
  next h m s f heq =>
    split at hev
    next hdur =>
      split at hev
      next hcb =>
        rw [Option.some.injEq] at hev
        injection hev with h1 h2
        subst h1
        exact ⟨hdur, progressValue_nonneg _ _ _ hdur (elapsedSeconds_nonneg h m s f),
          progressValue_le _ _ _⟩
      next => exact absurd hev (by simp)
    next => exact absurd hev (by simp)
  next heq => exact absurd hev (by simp)

/-- Witness for C10 at a concrete argument record and line. -/
theorem C10_witness :
    0 < (⟨"ffmpeg", "/up/in.mp4", "/out/x.gif", 0, none, 15, 480, 90, false, true⟩ :
        ConvArgs).conversion_duration ∧
      0 ≤ progressValue false 90 (elapsedSeconds 0 0 45 0) ∧
      progressValue false 90 (elapsedSeconds 0 0 45 0) ≤ 100 :=
  C10_progress_guard _ "time=00:00:45.00" _ "Creating GIF" (by
    have hs : searchTime "time=00:00:45.00".data = some (0, 0, 45, 0) := by decide
    simp [lineEvent, hs])

/-- C8: the claim says that for every stage exiting non-zero the surfaced
failure carries the full captured diagnostic text.  The palette stage does
(its captured stderr is embedded in the raised message), but the final
stage's failure message reads the stderr stream only after the progress loop
has already drained it, so for EVERY environment — in particular one whose
stderr carried diagnostic lines — the surfaced message is exactly
`"FFmpeg failed: "` with the diagnostic text silently discarded. -/
theorem C8_diagnostic_discarded :
    (∀ (env : ConvEnv) (a : ConvArgs) (fs : FS),
      env.paletteExit = 0 → env.finalExit ≠ 0 →
      (run_conversion env a fs).result = Except.error "FFmpeg failed: ") ∧
    (∀ (env : ConvEnv) (a : ConvArgs) (fs : FS),
      a.high_quality = true → env.paletteExit ≠ 0 →
      (run_conversion env a fs).result =
        Except.error ("Palette generation failed: " ++ env.paletteErr)) := by
  constructor
  · intro env a fs hpe hfe
    rw [run_conversion_result]
    by_cases hq : a.high_quality = true
    · rw [body_hq_ok env a fs hq hpe, finalStage_fail env a _ _ _ hfe]
    · rw [body_single env a fs (by simpa using hq), finalStage_fail env a _ _ _ hfe]
  · intro env a fs hq hpe
    rw [run_conversion_result, body_hq_fail env a fs hq hpe]

/-- Witness for C8: a single-pass run whose final process streams a
diagnostic line and exits 1 surfaces a failure message without that text. -/
theorem C8_witness :
    (run_conversion ⟨0, "", none, ["Error: diagnostic text\n"], 1, none⟩
      ⟨"ffmpeg", "/up/in.mp4", "/out/x.gif", 0, none, 15, 480, 90, false, true⟩
      (fun _ => none)).result = Except.error "FFmpeg failed: " :=
  C8_diagnostic_discarded.1 _ _ _ rfl (by decide)

/-- C7 counterexample: in the desktop variant a high-quality request performs
exactly ONE external-process invocation, whose single command combines the
palettegen and paletteuse filters, so the claim "exactly two sequential
invocations for every highQuality request" is false on the desktop worker. -/
theorem C7_counterexample :
    invokeCmds (conversion_worker_thread ⟨.exited 0 "", some 5⟩
        ⟨"ffmpeg", "/up/in.mp4", "/out/x.gif", 0, none, 15, 480, 10, true⟩
        ⟨"PENDING", some "/out/x.gif", none⟩ (fun _ => none)).2.2 =
      [desktopCommand ⟨"ffmpeg", "/up/in.mp4", "/out/x.gif", 0, none, 15, 480, 10, true⟩] ∧
    "split[s0][s1];[s0]palettegen[p];[s1][p]paletteuse" ∈
      desktopFilters ⟨"ffmpeg", "/up/in.mp4", "/out/x.gif", 0, none, 15, 480, 10, true⟩ := by
  exact ⟨rfl, by simp [desktopFilters]⟩

/-- C7 (amended): in the CORE pipeline (used by the webapp and the task-queue
wrapper) a high-quality request performs exactly two sequential invocations —
the palette-generation command writing the temporary palette artifact, then
the palette-application command reading it — with the palette stage reported
only at the fixed labels (0, "Generating Palette") and (20, "Creating GIF")
and the stage offset 20 applied to every second-pass progress value; a
non-high-quality request performs exactly one invocation; the DESKTOP variant
instead performs one invocation even in high-quality mode (see the
counterexample). -/
theorem C7_two_pass :
    (∀ (env : ConvEnv) (a : ConvArgs) (fs : FS),
      a.high_quality = true → env.paletteExit = 0 →
      invokeCmds (run_conversion env a fs).events = [paletteCmd a, gifCmd a]) ∧
    (∀ (env : ConvEnv) (a : ConvArgs) (fs : FS),
      a.high_quality = true → env.paletteExit ≠ 0 →
      invokeCmds (run_conversion env a fs).events = [paletteCmd a]) ∧
    (∀ (env : ConvEnv) (a : ConvArgs) (fs : FS),
      a.high_quality = false →
      invokeCmds (run_conversion env a fs).events = [singleCmd a]) ∧
    (∀ (env : ConvEnv) (a : ConvArgs) (fs : FS),
      a.high_quality = true → env.paletteExit = 0 → a.hasCallback = true →
      (runConversionBody env a fs).events =
        Event.progressCb 0 "Generating Palette" :: Event.invoke (paletteCmd a) ::
          Event.progressCb 20 "Creating GIF" :: Event.invoke (gifCmd a) ::
          loopEvents a env.finalLines) ∧
    (∀ dur el : ℚ, progressValue true dur el = min 100 (pyTrunc (20 + el / dur * 80))) := by
  refine ⟨?_, ?_, ?_, ?_, ?_⟩
  · intro env a fs hq hpe
    rw [run_conversion_events, body_hq_ok env a fs hq hpe, finalStage_events,
      invokeCmds_append, invokeCmds_runFinally]
    by_cases hcb : a.hasCallback = true <;>
      simp [hcb, invokeCmds_append, invokeCmds] <;>
      (intro e he; obtain ⟨p, rfl⟩ := mem_loopEvents_shape _ _ _ he; rfl)
  · intro env a fs hq hpe
    rw [run_conversion_events, body_hq_fail env a fs hq hpe,
      invokeCmds_append, invokeCmds_runFinally]
    by_cases hcb : a.hasCallback = true <;>
      simp [hcb, invokeCmds_append, invokeCmds]
  · intro env a fs hq
    rw [run_conversion_events, body_single env a fs hq, finalStage_events,
      invokeCmds_append, invokeCmds_runFinally]
    by_cases hcb : a.hasCallback = true <;>
      simp [hcb, invokeCmds_append, invokeCmds] <;>
      (intro e he; obtain ⟨p, rfl⟩ := mem_loopEvents_shape _ _ _ he; rfl)
  · intro env a fs hq hpe hcb
    rw [body_hq_ok env a fs hq hpe, finalStage_events]
    simp [hcb]
  · intro dur el
    norm_num [progressValue, baseProgress]

/-- Witness for C7 at a concrete high-quality environment. -/
theorem C7_witness :
    invokeCmds (run_conversion ⟨0, "", some 1, [], 0, some 4⟩
        ⟨"ffmpeg", "/up/in.mp4", "/out/x.gif", 0, none, 15, 480, 90, true, true⟩
        (fun _ => none)).events =
      [paletteCmd ⟨"ffmpeg", "/up/in.mp4", "/out/x.gif", 0, none, 15, 480, 90, true, true⟩,
        gifCmd ⟨"ffmpeg", "/up/in.mp4", "/out/x.gif", 0, none, 15, 480, 90, true, true⟩] :=
  C7_two_pass.1 _ _ _ rfl rfl

/-- C6 counterexample: the desktop worker transitions to SUCCESS on exit
code 0 without any artifact check — here ffmpeg exits 0 but writes nothing,
the destination is absent in the final filesystem, yet the record says
SUCCESS; so the claim is false on the desktop variant. -/
theorem C6_counterexample :
    ((conversion_worker_thread ⟨.exited 0 "", none⟩
        ⟨"ffmpeg", "/up/in.mp4", "/out/x.gif", 0, none, 15, 480, 10, false⟩
        ⟨"PENDING", some "/out/x.gif", none⟩
        (fun p => if p = "/up/in.mp4" then some 3 else none)).1.state = "SUCCESS") ∧
    ((conversion_worker_thread ⟨.exited 0 "", none⟩
        ⟨"ffmpeg", "/up/in.mp4", "/out/x.gif", 0, none, 15, 480, 10, false⟩
        ⟨"PENDING", some "/out/x.gif", none⟩
        (fun p => if p = "/up/in.mp4" then some 3 else none)).2.1 "/out/x.gif" = none) :=
  ⟨rfl, rfl⟩

/-- C6 (amended): in the core pipeline (webapp and task-queue paths), when
the final invocation exits 0 the run succeeds iff the destination artifact
exists with non-zero size, and a missing/empty artifact yields the artifact
failure; the DESKTOP worker instead marks SUCCESS on exit code 0 without
checking the artifact (see the counterexample). -/
theorem C6_artifact_check :
    (∀ (env : ConvEnv) (a : ConvArgs) (fs : FS),
      env.finalExit = 0 → (a.high_quality = true → env.paletteExit = 0) →
      (((run_conversion env a fs).result = .ok ()) ↔
        getsize (runConversionBody env a fs).fs a.output_path ≠ 0) ∧
      (getsize (runConversionBody env a fs).fs a.output_path = 0 →
        (run_conversion env a fs).result = .error "Output GIF file was not created.")) ∧
    (∀ (env : DesktopEnv) (job : ConversionJob) (tr : TaskRecord) (fs : FS) (s : String),
      env.proc = .exited 0 s →
      (conversion_worker_thread env job tr fs).1.state = "SUCCESS") := by
  constructor
  · intro env a fs hfe hpal
    by_cases hq : a.high_quality = true
    · have hpe := hpal hq
      rw [run_conversion_result, body_hq_ok env a fs hq hpe,
        finalStage_exit0 env a _ _ _ hfe]
      set fs2 := applyWrite (applyWrite fs (palettePathOf a) env.paletteWrites)
        a.output_path env.finalWrites with hfs2
      by_cases hc : ¬ pathExists fs2 a.output_path = true ∨ getsize fs2 a.output_path = 0
      · rw [if_pos hc]
        have hz := (artifact_absent_iff fs2 a.output_path).mp hc
        exact ⟨⟨fun habs => absurd habs (by simp), fun hnz => absurd hz hnz⟩, fun _ => rfl⟩
      · rw [if_neg hc]
        have hnz : getsize fs2 a.output_path ≠ 0 := fun hz =>
          hc ((artifact_absent_iff fs2 a.output_path).mpr hz)
        exact ⟨⟨fun _ => hnz, fun _ => rfl⟩, fun hz => absurd hz hnz⟩
    · rw [run_conversion_result, body_single env a fs (by simpa using hq),
        finalStage_exit0 env a _ _ _ hfe]
      set fs2 := applyWrite fs a.output_path env.finalWrites with hfs2
      by_cases hc : ¬ pathExists fs2 a.output_path = true ∨ getsize fs2 a.output_path = 0
      · rw [if_pos hc]
        have hz := (artifact_absent_iff fs2 a.output_path).mp hc
        exact ⟨⟨fun habs => absurd habs (by simp), fun hnz => absurd hz hnz⟩, fun _ => rfl⟩
      · rw [if_neg hc]
        have hnz : getsize fs2 a.output_path ≠ 0 := fun hz =>
          hc ((artifact_absent_iff fs2 a.output_path).mpr hz)
        exact ⟨⟨fun _ => hnz, fun _ => rfl⟩, fun hz => absurd hz hnz⟩
  · intro env job tr fs s hp
    unfold conversion_worker_thread
    rw [hp]
    rfl

/-- Witness for C6 at a concrete single-pass environment whose final process
exits 0 and writes a non-empty artifact. -/
theorem C6_witness :
    (((run_conversion ⟨0, "", none, [], 0, some 5⟩
        ⟨"ffmpeg", "/up/in.mp4", "/out/x.gif", 0, none, 15, 480, 90, false, true⟩
        (fun _ => none)).result = .ok ()) ↔
      getsize (runConversionBody ⟨0, "", none, [], 0, some 5⟩
        ⟨"ffmpeg", "/up/in.mp4", "/out/x.gif", 0, none, 15, 480, 90, false, true⟩
        (fun _ => none)).fs "/out/x.gif" ≠ 0) ∧
    (getsize (runConversionBody ⟨0, "", none, [], 0, some 5⟩
        ⟨"ffmpeg", "/up/in.mp4", "/out/x.gif", 0, none, 15, 480, 90, false, true⟩
        (fun _ => none)).fs "/out/x.gif" = 0 →
      (run_conversion ⟨0, "", none, [], 0, some 5⟩
        ⟨"ffmpeg", "/up/in.mp4", "/out/x.gif", 0, none, 15, 480, 90, false, true⟩
        (fun _ => none)).result = .error "Output GIF file was not created.") :=
  C6_artifact_check.1 _ _ _ rfl (by simp)

/-- C1: in the core worker pipeline (`run_conversion`) the source input file
and, in two-pass mode, the temporary palette intermediate are deleted exactly
once before the worker exits, on every exit path — success, pipeline failure,
or an unexpected fault mid-pipeline, the latter modelled by the finalizer
running against an ARBITRARY body outcome; deletion has delete-if-exists
semantics, so cleanup of an already-absent path is a no-op rather than a
crash. -/
theorem C1_guaranteed_cleanup :
    (∀ (env : ConvEnv) (a : ConvArgs) (fs : FS),
      pathExists fs a.input_path = true →
      a.input_path ≠ a.output_path →
      a.input_path ≠ palettePathOf a →
      countRemoved (run_conversion env a fs).events a.input_path = 1 ∧
      (run_conversion env a fs).fs a.input_path = none ∧
      (a.high_quality = true → env.paletteWrites.isSome = true →
        countRemoved (run_conversion env a fs).events (palettePathOf a) = 1) ∧
      (a.high_quality = true → (run_conversion env a fs).fs (palettePathOf a) = none)) ∧
    (∀ (input : String) (b : BodyOut),
      (runWithFinalizer input b).fs input = none ∧
      ∀ p, b.palette_path = some p → (runWithFinalizer input b).fs p = none) ∧
    (∀ (input : String) (pp : Option String) (fs : FS),
      pathExists fs input = false →
      (∀ p, pp = some p → pathExists fs p = false) →
      runFinally input pp fs = (fs, [])) ∧
    (∀ (env : DesktopEnv) (job : ConversionJob) (tr : TaskRecord) (fs : FS),
      (conversion_worker_thread env job tr fs).2.1 job.input_path = none) := by
  refine ⟨?_, ?_, ?_, ?_⟩
  · intro env a fs hin hne1 hne2
    have hbfs : (runConversionBody env a fs).fs a.input_path = fs a.input_path :=
      body_fs_other env a fs a.input_path hne2 hne1
    have hbex : pathExists (runConversionBody env a fs).fs a.input_path = true := by
      unfold pathExists at hin ⊢
      rw [hbfs]
      exact hin
    have hc0 : countRemoved (runConversionBody env a fs).events a.input_path = 0 :=
      countRemoved_of_not_mem _ _ (body_no_removed env a fs a.input_path)
    have hcp0 : countRemoved (runConversionBody env a fs).events (palettePathOf a) = 0 :=
      countRemoved_of_not_mem _ _ (body_no_removed env a fs _)
    refine ⟨?_, ?_, ?_, ?_⟩
    · rw [run_conversion_events, countRemoved_append, hc0]
      by_cases hq : a.high_quality = true
      · have hpp : (runConversionBody env a fs).palette_path = some (palettePathOf a) := by
          rw [body_palette_path]
          simp [hq]
        rw [hpp, runFinally_some_eq, cleanupStep_events_present _ _ hbex,
          countRemoved_append, countRemoved_removed_self]
        have hz : countRemoved (cleanupStep
            (cleanupStep (runConversionBody env a fs).fs a.input_path).1
            (palettePathOf a)).2 a.input_path = 0 := by
          unfold cleanupStep
          split_ifs with h
          · exact countRemoved_removed_other _ _ hne2.symm
          · rfl
        rw [hz]
      · have hpp : (runConversionBody env a fs).palette_path = none := by
          rw [body_palette_path]
          simp [hq]
        rw [hpp, runFinally_none_eq, cleanupStep_events_present _ _ hbex,
          countRemoved_removed_self]
    · rw [run_conversion_fs]
      exact runFinally_fs_input _ _ _
    · intro hq hw
      have hpp : (runConversionBody env a fs).palette_path = some (palettePathOf a) := by
        rw [body_palette_path]
        simp [hq]
      rw [run_conversion_events, countRemoved_append, hcp0, hpp, runFinally_some_eq,
        cleanupStep_events_present _ _ hbex, countRemoved_append,
        countRemoved_removed_other _ _ hne2]
      have hpal1 : pathExists (cleanupStep (runConversionBody env a fs).fs
          a.input_path).1 (palettePathOf a) = true := by
        unfold pathExists
        rw [cleanupStep_fs_other _ _ _ hne2.symm]
        have hb := body_fs_palette env a fs hq hw
        unfold pathExists at hb
        exact hb
      rw [cleanupStep_events_present _ _ hpal1, countRemoved_removed_self]
    · intro hq
      have hpp : (runConversionBody env a fs).palette_path = some (palettePathOf a) := by
        rw [body_palette_path]
        simp [hq]
      rw [run_conversion_fs, hpp]
      exact runFinally_fs_some _ _ _
  · intro input b
    refine ⟨runFinally_fs_input _ _ _, fun p hp => ?_⟩
    show (runFinally input b.palette_path b.fs).1 p = none
    rw [hp]
    exact runFinally_fs_some _ _ _
  · intro input pp fs h1 h2
    have e1 : cleanupStep fs input = (fs, []) := by
      unfold cleanupStep
      rw [if_neg (by simp [h1])]
    cases pp with
    | none => rw [runFinally_none_eq, e1]
    | some p =>
      have e2 : cleanupStep fs p = (fs, []) := by
        unfold cleanupStep
        rw [if_neg (by simp [h2 p rfl])]
      rw [runFinally_some_eq, e1]
      simp [e2]
  · intro env job tr fs
    unfold conversion_worker_thread
    dsimp only
    exact cleanupStep_fs_self _ _

/-- Witness for C1: a two-pass run over a filesystem holding the input,
where ffmpeg writes the palette and the artifact. -/
theorem C1_witness :
    countRemoved (run_conversion ⟨0, "", some 1, [], 0, some 4⟩
        ⟨"ffmpeg", "/up/in.mp4", "/out/x.gif", 0, none, 15, 480, 90, true, true⟩
        (fun p => if p = "/up/in.mp4" then some 3 else none)).events "/up/in.mp4" = 1 ∧
    (run_conversion ⟨0, "", some 1, [], 0, some 4⟩
        ⟨"ffmpeg", "/up/in.mp4", "/out/x.gif", 0, none, 15, 480, 90, true, true⟩
        (fun p => if p = "/up/in.mp4" then some 3 else none)).fs "/up/in.mp4" = none ∧
    countRemoved (run_conversion ⟨0, "", some 1, [], 0, some 4⟩
        ⟨"ffmpeg", "/up/in.mp4", "/out/x.gif", 0, none, 15, 480, 90, true, true⟩
        (fun p => if p = "/up/in.mp4" then some 3 else none)).events
      (palettePathOf ⟨"ffmpeg", "/up/in.mp4", "/out/x.gif", 0, none, 15, 480, 90, true, true⟩) = 1 ∧
    (run_conversion ⟨0, "", some 1, [], 0, some 4⟩
        ⟨"ffmpeg", "/up/in.mp4", "/out/x.gif", 0, none, 15, 480, 90, true, true⟩
        (fun p => if p = "/up/in.mp4" then some 3 else none)).fs
      (palettePathOf ⟨"ffmpeg", "/up/in.mp4", "/out/x.gif", 0, none, 15, 480, 90, true, true⟩) = none := by
  obtain ⟨h1, h2, h3, h4⟩ := C1_guaranteed_cleanup.1 ⟨0, "", some 1, [], 0, some 4⟩
    ⟨"ffmpeg", "/up/in.mp4", "/out/x.gif", 0, none, 15, 480, 90, true, true⟩
    (fun p => if p = "/up/in.mp4" then some 3 else none)
    (by decide) (by decide) (by decide)
  exact ⟨h1, h2, h3 rfl rfl, h4 rfl⟩

/-- C9: the core `get_video_duration` is claimed never to propagate an
exception; but when ffprobe exits 0 with stdout that does not parse as a
number (e.g. `"N/A\n"`), the uncaught `ValueError` from `float()` escapes to
the caller, while the desktop variant (which also catches `ValueError`)
returns `None` on the same input; the `CalledProcessError` and
`FileNotFoundError` cases are caught by both. -/
theorem C9_probe_exception :
    get_video_duration (.success "N/A\n") = .error (.valueError "N/A\n") ∧
    desktop_get_video_duration (.success "N/A\n") = none ∧
    get_video_duration .calledProcessError = .ok none ∧
    get_video_duration .fileNotFound = .ok none ∧
    desktop_get_video_duration .calledProcessError = none ∧
    desktop_get_video_duration .fileNotFound = none :=
  ⟨rfl, rfl, rfl, rfl, rfl, rfl⟩

/-- C2 counterexample: in the desktop variant the job record is created at
PENDING with the artifact path ALREADY populated, and a FAILURE transition
adds the error while keeping the artifact path — so a non-terminal record has
a populated artifact path and a terminal FAILURE record has both fields,
contradicting the claimed invariant. -/
theorem C2_counterexample :
    ((desktop_start_conversion_task (.success "30") "tid" "/up/in.mp4" "/out/x.gif" 0 none []
        (fun p => if p = "/up/in.mp4" then some 3 else none)).2.1 =
      [("tid", ⟨"PENDING", some "/out/x.gif", none⟩)]) ∧
    ((conversion_worker_thread ⟨.exited 1 "boom", none⟩
        ⟨"ffmpeg", "/up/in.mp4", "/out/x.gif", 0, none, 15, 480, 30, false⟩
        ⟨"PENDING", some "/out/x.gif", none⟩
        (fun p => if p = "/up/in.mp4" then some 3 else none)).1 =
      ⟨"FAILURE", some "/out/x.gif", some desktopFfmpegErrorMsg⟩) := by
  constructor
  · unfold desktop_start_conversion_task
    rw [show desktop_get_video_duration (.success "30") = some 30 from rfl]
    dsimp only
    rw [if_neg (by norm_num [computeConversionDuration])]
  · rfl

/-- C2 (amended): in the webapp status-file variant the invariant holds —
every snapshot ever written has exactly one of result/error populated when
terminal and neither when PENDING/PROGRESS; in the desktop variant the
record's artifact path is populated from creation and retained, so a FAILURE
record carries the error AND the artifact path (see the counterexample). -/
theorem C2_terminal_exclusivity :
    (∀ (wenv : WebappEnv) (usz : Nat) (fp ip op : String) (st : ℚ) (et : Option ℚ)
        (fps w : Nat) (hq : Bool) (fs : FS) (r : StatusRecord),
      r ∈ (webapp_submit_and_run wenv usz fp ip op st et fps w hq fs).1 →
        ((r.state = "SUCCESS" ∨ r.state = "FAILURE") → (r.result.isSome ↔ r.error = none)) ∧
        ((r.state = "PENDING" ∨ r.state = "PROGRESS") → r.result = none ∧ r.error = none)) ∧
    (∀ (env : DesktopEnv) (job : ConversionJob) (tr : TaskRecord) (fs : FS)
        (c : ℤ) (s : String),
      env.proc = .exited c s → c ≠ 0 →
      (conversion_worker_thread env job tr fs).1.error.isSome = true ∧
      (conversion_worker_thread env job tr fs).1.output_path = tr.output_path) := by
  constructor
  · intro wenv usz fp ip op st et fps w hq fs r hmem
    rcases webapp_writes_shape wenv usz fp ip op st et fps w hq fs r hmem with
      rfl | ⟨p, l, rfl⟩ | ⟨m, rfl⟩ | ⟨o, rfl⟩
    · exact ⟨fun h => absurd h (by decide), fun _ => ⟨rfl, rfl⟩⟩
    · exact ⟨fun h => absurd h (by simp [stProgress]), fun _ => ⟨rfl, rfl⟩⟩
    · exact ⟨fun _ => by simp [stFailure], fun h => absurd h (by simp [stFailure])⟩
    · exact ⟨fun _ => by simp [stSuccess], fun h => absurd h (by simp [stSuccess])⟩
  · intro env job tr fs c s hp hc
    unfold conversion_worker_thread
    rw [hp]
    rcases c with n | n
    · cases n with
      | zero => exact absurd rfl hc
      | succ k => exact ⟨rfl, rfl⟩
    · exact ⟨rfl, rfl⟩

/-- Witness for C2: the terminal FAILURE snapshot of a probe-failing webapp
run satisfies the exclusivity invariant. -/
theorem C2_witness :
    (((stFailure probeFailMsg).state = "SUCCESS" ∨
        (stFailure probeFailMsg).state = "FAILURE") →
      ((stFailure probeFailMsg).result.isSome ↔ (stFailure probeFailMsg).error = none)) ∧
    (((stFailure probeFailMsg).state = "PENDING" ∨
        (stFailure probeFailMsg).state = "PROGRESS") →
      (stFailure probeFailMsg).result = none ∧ (stFailure probeFailMsg).error = none) :=
  C2_terminal_exclusivity.1 ⟨.calledProcessError, ⟨0, "", none, [], 0, none⟩⟩ 3 "ffmpeg"
    "/up/in.mp4" "/out/x.gif" 0 none 10 320 false (fun _ => none) (stFailure probeFailMsg)
    (by decide)

/-- C3 counterexample: in the webapp variant the PENDING status file — the
job record — is written at submission, BEFORE the worker probes the source,
so a submission whose probe fails still leaves job records (PENDING, then an
asynchronous FAILURE), contradicting "no job record ever exists". -/
theorem C3_counterexample :
    (webapp_submit_and_run ⟨.calledProcessError, ⟨0, "", none, [], 0, none⟩⟩ 3 "ffmpeg"
        "/up/in.mp4" "/out/x.gif" 0 none 10 320 false (fun _ => none)).1 =
      [stPending, stProgress 0 probeStepMsg, stFailure probeFailMsg] := rfl

/-- C3 (amended): the DESKTOP variant rejects synchronously before any job
record is created, both on probe failure (HTTP 500) and on a non-positive
window (HTTP 400), leaving the job table unchanged; the WEBAPP variant
creates the PENDING status file at submission and records probe/window
failures asynchronously as a FAILURE state on the already-existing job. -/
theorem C3_presubmit_validation :
    (∀ (probeOut : ProbeOutcome) (tid ip op : String) (st : ℚ) (et : Option ℚ)
        (db : List (String × TaskRecord)) (fs : FS),
      desktop_get_video_duration probeOut = none →
      (desktop_start_conversion_task probeOut tid ip op st et db fs).1 =
          .error ("Could not get video information.", 500) ∧
      (desktop_start_conversion_task probeOut tid ip op st et db fs).2.1 = db) ∧
    (∀ (probeOut : ProbeOutcome) (tid ip op : String) (st : ℚ) (et : Option ℚ)
        (db : List (String × TaskRecord)) (fs : FS) (d : ℚ),
      desktop_get_video_duration probeOut = some d →
      computeConversionDuration st et d ≤ 0 →
      (desktop_start_conversion_task probeOut tid ip op st et db fs).1 =
          .error ("Conversion duration must be positive.", 400) ∧
      (desktop_start_conversion_task probeOut tid ip op st et db fs).2.1 = db) ∧
    (∀ (wenv : WebappEnv) (usz : Nat) (fp ip op : String) (st : ℚ) (et : Option ℚ)
        (fps w : Nat) (hq : Bool) (fs : FS),
      get_video_duration wenv.probe = .ok none →
      (webapp_submit_and_run wenv usz fp ip op st et fps w hq fs).1 =
        [stPending, stProgress 0 probeStepMsg, stFailure probeFailMsg]) ∧
    (∀ (wenv : WebappEnv) (usz : Nat) (fp ip op : String) (st : ℚ) (et : Option ℚ)
        (fps w : Nat) (hq : Bool) (fs : FS) (d : ℚ),
      get_video_duration wenv.probe = .ok (some d) →
      computeConversionDuration st et d ≤ 0 →
      (webapp_submit_and_run wenv usz fp ip op st et fps w hq fs).1 =
        [stPending, stProgress 0 probeStepMsg, stFailure windowMsg]) := by
  refine ⟨?_, ?_, ?_, ?_⟩
  · intro probeOut tid ip op st et db fs hd
    unfold desktop_start_conversion_task
    rw [hd]
    exact ⟨rfl, rfl⟩
  · intro probeOut tid ip op st et db fs d hd hcd
    unfold desktop_start_conversion_task
    rw [hd]
    dsimp only
    rw [if_pos hcd]
    exact ⟨rfl, rfl⟩
  · intro wenv usz fp ip op st et fps w hq fs hp
    unfold webapp_submit_and_run webapp_conversion_worker
    rw [hp]
  · intro wenv usz fp ip op st et fps w hq fs d hp hcd
    unfold webapp_submit_and_run webapp_conversion_worker
    rw [hp]
    dsimp only
    rw [if_pos hcd]

/-- Witness for C3: a desktop submission whose probing tool is missing is
rejected with HTTP 500 and creates no job-table entry. -/
theorem C3_witness :
    ((desktop_start_conversion_task .fileNotFound "tid" "/up/in.mp4" "/out/x.gif" 0 none []
        (fun p => if p = "/up/in.mp4" then some 3 else none)).1 =
      .error ("Could not get video information.", 500)) ∧
    ((desktop_start_conversion_task .fileNotFound "tid" "/up/in.mp4" "/out/x.gif" 0 none []
        (fun p => if p = "/up/in.mp4" then some 3 else none)).2.1 = []) :=
  C3_presubmit_validation.1 .fileNotFound "tid" "/up/in.mp4" "/out/x.gif" 0 none []
    (fun p => if p = "/up/in.mp4" then some 3 else none) rfl

/-- C4: the conversion window equals `sourceDuration - startTime` when
`endTime` is absent, and `min(endTime, sourceDuration) - startTime` when
present; the desktop submission is rejected with the window error exactly
when this value is ≤ 0, and a webapp job fails with the window message when
it is ≤ 0. -/
theorem C4_conversion_window :
    (∀ (st d : ℚ), computeConversionDuration st none d = d - st) ∧
    (∀ (st e d : ℚ), computeConversionDuration st (some e) d = min e d - st) ∧
    (∀ (probeOut : ProbeOutcome) (tid ip op : String) (st : ℚ) (et : Option ℚ)
        (db : List (String × TaskRecord)) (fs : FS) (d : ℚ),
      desktop_get_video_duration probeOut = some d →
      ((desktop_start_conversion_task probeOut tid ip op st et db fs).1 =
          .error ("Conversion duration must be positive.", 400) ↔
        computeConversionDuration st et d ≤ 0)) ∧
    (∀ (wenv : WebappEnv) (fp ip op : String) (st : ℚ) (et : Option ℚ)
        (fps w : Nat) (hq : Bool) (fs : FS) (d : ℚ),
      get_video_duration wenv.probe = .ok (some d) →
      computeConversionDuration st et d ≤ 0 →
      (webapp_conversion_worker wenv fp ip op st et fps w hq fs).1 =
        [stProgress 0 probeStepMsg, stFailure windowMsg]) := by
  refine ⟨fun st d => rfl, fun st e d => rfl, ?_, ?_⟩
  · intro probeOut tid ip op st et db fs d hd
    unfold desktop_start_conversion_task
    rw [hd]
    dsimp only
    by_cases hcd : computeConversionDuration st et d ≤ 0
    · rw [if_pos hcd]
      simp [hcd]
    · rw [if_neg hcd]
      simp [hcd]
  · intro wenv fp ip op st et fps w hq fs d hp hcd
    unfold webapp_conversion_worker
    rw [hp]
    dsimp only
    rw [if_pos hcd]

/-- Witness for C4: the spec's example — a 30-second source with
`startTime = 25` and `endTime = 10`. -/
theorem C4_witness :
    (desktop_start_conversion_task (.success "30") "tid" "/up/in.mp4" "/out/x.gif" 25
        (some 10) [] (fun p => if p = "/up/in.mp4" then some 3 else none)).1 =
        .error ("Conversion duration must be positive.", 400) ↔
      computeConversionDuration 25 (some 10) 30 ≤ 0 :=
  C4_conversion_window.2.2.1 (.success "30") "tid" "/up/in.mp4" "/out/x.gif" 25 (some 10)
    [] (fun p => if p = "/up/in.mp4" then some 3 else none) 30 rfl

end MP4Gif
